import Mathlib

/-!
Verification of the authentication-resolution state machine implemented in
`src/client/components/Auth.tsx` (the `AuthWrapper` component, in particular
its `fetchTokenInfo` and `fetchUserProfile` methods).

The external collaborators (`BrowserAuth`, `AuthService`, `UserModel`,
`AsyncProcess`) live outside the given source tree; they are consumed
through narrow interfaces and are modelled here as an environment record of
pure results, per the interface descriptions of the specification.  The
orchestration logic itself — every branch of `fetchTokenInfo`, the
interpolated error message of `fetchUserProfile`, and the classification
performed by the `catch` block — is translated directly from the source.
-/

namespace Navigator

/-- Modelled from the spec: the validation metadata (`TokenInfo` from
`../utils/AuthService`, a module not present in the source tree): an
identifying username/subject (`user`, read by `fetchTokenInfo` as
`tokenInfo.user`) together with any provider-specific fields. -/
structure TokenInfo where
  user : String
  fields : List (String × String)
deriving DecidableEq

/-- Modelled from the spec: the profile record returned by the Profile
Fetcher (`UserProfile` from `../utils/UserModel`, a module not present in
the source tree).  Treated as opaque data by the orchestration; a single
string field suffices to track that it is passed through unmodified. -/
structure UserProfile where
  name : String
deriving DecidableEq

/-- `AuthInfo` from `Auth.tsx`: the raw token together with its validation
metadata. -/
structure AuthInfo where
  token : String
  tokenInfo : TokenInfo
deriving DecidableEq

/-- `AuthenticationState` from `Auth.tsx`: the discriminated union over
`AuthenticationStatus` (`NONE`, `AUTHENTICATED` with `authInfo` and
`userProfile` payloads, `UNAUTHENTICATED` with no payload).  As a Lean
inductive, exactly one variant is active by construction. -/
inductive AuthenticationState where
  | none
  | authenticated (authInfo : AuthInfo) (userProfile : UserProfile)
  | unauthenticated
deriving DecidableEq

/-- The async envelope from `../utils/AsyncProcess`.  `Auth.tsx` uses the
`NONE`, `SUCCESS` and `ERROR` phases; the `pending` phase is modelled from
the spec, which describes a four-phase envelope (`Idle`, `Pending`,
`Succeeded(value)`, `Failed(message)`). -/
inductive AsyncProcess (α : Type) where
  | none
  | pending
  | success (value : α)
  | error (message : String)
deriving DecidableEq

/-- `AuthState` from `Auth.tsx`: the envelope around an
`AuthenticationState`. -/
abbrev AuthState := AsyncProcess AuthenticationState

/-- A raised JavaScript value, as classified by the `catch` block of
`fetchTokenInfo`: an `AuthError` (from `../utils/AuthService`) carrying
`{appcode, message}`, a plain `Error` carrying a message string, or any
other thrown value (matching neither `instanceof` test). -/
inductive JsError where
  | authError (appcode : Int) (message : String)
  | error (message : String)
  | other
deriving DecidableEq

/-- The external collaborators, per the narrow interfaces of the spec:
`getToken` is `BrowserAuth.getToken()` (synchronous, token or absent);
`getTokenInfo` is `new AuthService(token).getTokenInfo()` (metadata,
absent, or a raised value); `fetchProfile` is
`new UserModel(token).fetchProfile(username)` (record, absent, or a raised
value). -/
structure Env where
  getToken : Option String
  getTokenInfo : String → Except JsError (Option TokenInfo)
  fetchProfile : String → String → Except JsError (Option UserProfile)

/-- The local helper `unauthenticatedState()` inside `fetchTokenInfo`:
`{status: SUCCESS, value: {status: UNAUTHENTICATED}}`. -/
def unauthenticatedState : AuthState :=
  AsyncProcess.success AuthenticationState.unauthenticated

/-- The local helper `errorState(message)` inside `fetchTokenInfo`:
`{status: ERROR, message}`. -/
def errorState (message : String) : AuthState :=
  AsyncProcess.error message

/-- `AuthWrapper.fetchUserProfile(token, username)`: calls
`userModel.fetchProfile(username)`; when the profile is `null` it throws
`new Error("User not found: " + username)`, otherwise returns the
profile.  A value raised by `fetchProfile` itself propagates. -/
def fetchUserProfile (env : Env) (token username : String) :
    Except JsError UserProfile :=
  match env.fetchProfile token username with
  | Except.error e => Except.error e
  | Except.ok Option.none =>
      Except.error (JsError.error ("User not found: " ++ username))
  | Except.ok (Option.some userProfile) => Except.ok userProfile

/-- The `catch (ex)` block of `fetchTokenInfo`: an `AuthError` with
`appcode` 10020 yields `unauthenticatedState()`, any other `AuthError`
yields `errorState(ex.error.message)`, a plain `Error` yields
`errorState(ex.message)`, and any other thrown value yields
`errorState('Unknown Error')`. -/
def handleCatch : JsError → AuthState
  | JsError.authError appcode message =>
      if appcode = 10020 then unauthenticatedState else errorState message
  | JsError.error message => errorState message
  | JsError.other => errorState "Unknown Error"

/-- The observable effects of one `fetchTokenInfo()` run: the `setState`
writes to `authState` in order, and how many times the verification client
(`getTokenInfo`) and the profile fetcher (`fetchProfile`) were invoked. -/
structure RunResult where
  writes : List AuthState
  verifyCalls : Nat
  profileCalls : Nat
deriving DecidableEq

/-- `AuthWrapper.fetchTokenInfo()`, translated branch by branch:
absent token → one `unauthenticatedState()` write, no calls; otherwise
`getTokenInfo` is awaited inside `try`: absent metadata → one
`unauthenticatedState()` write; metadata present → `fetchUserProfile` is
awaited, and on success one `SUCCESS` write carrying
`{AUTHENTICATED, authInfo: {token, tokenInfo}, userProfile}`; any value
raised inside the `try` block is handled by `handleCatch`, producing one
write. -/
def fetchTokenInfo (env : Env) : RunResult :=
  match env.getToken with
  | Option.none => ⟨[unauthenticatedState], 0, 0⟩
  | Option.some token =>
    match env.getTokenInfo token with
    | Except.error ex => ⟨[handleCatch ex], 1, 0⟩
    | Except.ok Option.none => ⟨[unauthenticatedState], 1, 0⟩
    | Except.ok (Option.some tokenInfo) =>
      match fetchUserProfile env token tokenInfo.user with
      | Except.error ex => ⟨[handleCatch ex], 1, 1⟩
      | Except.ok userProfile =>
          ⟨[AsyncProcess.success
              (AuthenticationState.authenticated ⟨token, tokenInfo⟩
                userProfile)], 1, 1⟩

/-- The envelope values a consumer of the context can observe over one
mount, in order: the initial `{status: NONE}` set by the constructor,
followed by each `setState` write performed by `fetchTokenInfo` (invoked
from `componentDidMount`). -/
def mountWrites (env : Env) : List AuthState :=
  AsyncProcess.none :: (fetchTokenInfo env).writes

/-- Helper: whatever value the `catch` block classifies, the resulting
envelope is either a success or an error. -/
theorem handleCatch_terminal (ex : JsError) :
    (∃ v, handleCatch ex = AsyncProcess.success v) ∨
    (∃ m, handleCatch ex = AsyncProcess.error m) := by
  cases ex with
  | authError code msg =>
    by_cases h : code = 10020
    · exact Or.inl ⟨AuthenticationState.unauthenticated,
        by simp [handleCatch, h, unauthenticatedState]⟩
    · exact Or.inr ⟨msg, by simp [handleCatch, h, errorState]⟩
  | error msg => exact Or.inr ⟨msg, rfl⟩
  | other => exact Or.inr ⟨"Unknown Error", rfl⟩

/-- Helper: every run of `fetchTokenInfo` performs exactly one `setState`
write, and that write is a success or an error envelope. -/
theorem single_terminal_write (env : Env) :
    ∃ w, (fetchTokenInfo env).writes = [w] ∧
      ((∃ v, w = AsyncProcess.success v) ∨ (∃ m, w = AsyncProcess.error m)) := by
  cases htok : env.getToken with
  | none =>
    exact ⟨unauthenticatedState, by simp [fetchTokenInfo, htok], Or.inl ⟨_, rfl⟩⟩
  | some token =>
    cases hg : env.getTokenInfo token with
    | error ex =>
      exact ⟨handleCatch ex, by simp [fetchTokenInfo, htok, hg],
        handleCatch_terminal ex⟩
    | ok oinfo =>
      cases oinfo with
      | none =>
        exact ⟨unauthenticatedState, by simp [fetchTokenInfo, htok, hg],
          Or.inl ⟨_, rfl⟩⟩
      | some info =>
        cases hp : fetchUserProfile env token info.user with
        | error ex =>
          exact ⟨handleCatch ex, by simp [fetchTokenInfo, htok, hg, hp],
            handleCatch_terminal ex⟩
        | ok up =>
          exact ⟨AsyncProcess.success
              (AuthenticationState.authenticated ⟨token, info⟩ up),
            by simp [fetchTokenInfo, htok, hg, hp], Or.inl ⟨_, rfl⟩⟩

/-- Helper: the `catch` block never produces an authenticated success. -/
theorem handleCatch_ne_authenticated (ex : JsError) (ai : AuthInfo)
    (up : UserProfile) :
    handleCatch ex ≠
      AsyncProcess.success (AuthenticationState.authenticated ai up) := by
  cases ex with
  | authError code msg =>
    by_cases hc : code = 10020 <;>
      simp [handleCatch, hc, unauthenticatedState, errorState]
  | error msg => simp [handleCatch, errorState]
  | other => simp [handleCatch, errorState]

/-- Claim C1: when the token is present and verification raises a classified
failure with the invalid/expired-token code 10020, the run writes
`Succeeded(Unauthenticated)` — exactly the same run result as when
verification returns absent metadata — and not a `Failed` envelope. -/
theorem invalidTokenCode_collapses_to_unauthenticated
    (env envAbsent : Env) (token msg : String)
    (htok : env.getToken = some token)
    (hraise : env.getTokenInfo token
        = Except.error (JsError.authError 10020 msg))
    (htokA : envAbsent.getToken = some token)
    (habsent : envAbsent.getTokenInfo token = Except.ok Option.none) :
    (fetchTokenInfo env).writes
        = [AsyncProcess.success AuthenticationState.unauthenticated] ∧
    fetchTokenInfo env = fetchTokenInfo envAbsent := by
  simp [fetchTokenInfo, htok, hraise, htokA, habsent, handleCatch,
    unauthenticatedState]

/-- Witness for C1: token "xyz", verification raises `{code:10020,
message:"expired"}`. -/
theorem invalidTokenCode_collapses_to_unauthenticated_witness :
    (fetchTokenInfo ⟨some "xyz",
        fun _ => Except.error (JsError.authError 10020 "expired"),
        fun _ _ => Except.ok Option.none⟩).writes
      = [AsyncProcess.success AuthenticationState.unauthenticated] ∧
    fetchTokenInfo ⟨some "xyz",
        fun _ => Except.error (JsError.authError 10020 "expired"),
        fun _ _ => Except.ok Option.none⟩
      = fetchTokenInfo ⟨some "xyz", fun _ => Except.ok Option.none,
        fun _ _ => Except.ok Option.none⟩ :=
  invalidTokenCode_collapses_to_unauthenticated _ _ "xyz" "expired"
    rfl rfl rfl rfl

/-- Claim C2: when the token validates with metadata but the profile fetch
returns absent, the run writes `Failed("User not found: " ++ subject)` —
an error, not Unauthenticated. -/
theorem profileNotFound_is_error (env : Env) (token : String)
    (info : TokenInfo)
    (htok : env.getToken = some token)
    (hverify : env.getTokenInfo token = Except.ok (some info))
    (hprofile : env.fetchProfile token info.user = Except.ok Option.none) :
    (fetchTokenInfo env).writes
      = [AsyncProcess.error ("User not found: " ++ info.user)] := by
  simp [fetchTokenInfo, fetchUserProfile, htok, hverify, hprofile,
    handleCatch, errorState]

/-- Witness for C2: token "xyz", verification succeeds with `{user:"bob"}`,
profile fetch for "bob" returns absent. -/
theorem profileNotFound_is_error_witness :
    (fetchTokenInfo ⟨some "xyz",
        fun _ => Except.ok (some ⟨"bob", []⟩),
        fun _ _ => Except.ok Option.none⟩).writes
      = [AsyncProcess.error "User not found: bob"] :=
  profileNotFound_is_error
    ⟨some "xyz", fun _ => Except.ok (some ⟨"bob", []⟩),
      fun _ _ => Except.ok Option.none⟩ "xyz" ⟨"bob", []⟩ rfl rfl rfl

/-- Counterexample to C3 as stated: on a concrete run (token absent) the
`Pending` phase is never written — neither immediately upon start nor at
any point of the mount; the only write is the terminal one. -/
theorem pending_never_written_counterexample :
    AsyncProcess.pending ∉
      mountWrites ⟨Option.none, fun _ => Except.ok Option.none,
        fun _ _ => Except.ok Option.none⟩ ∧
    (fetchTokenInfo ⟨Option.none, fun _ => Except.ok Option.none,
        fun _ _ => Except.ok Option.none⟩).writes
      = [AsyncProcess.success AuthenticationState.unauthenticated] := by
  constructor
  · simp [mountWrites, fetchTokenInfo, unauthenticatedState]
  · simp [fetchTokenInfo, unauthenticatedState]

/-- C3 as amended: every invocation of `fetchTokenInfo` performs exactly one
envelope write, which is `Succeeded` or `Failed`; the `Pending` phase is
never published, and the `Idle` phase appears only as the initial state set
by the constructor, never as a write of the resolution. -/
theorem resolve_single_write_no_pending (env : Env) :
    (∃ w, (fetchTokenInfo env).writes = [w] ∧
      ((∃ v, w = AsyncProcess.success v) ∨ (∃ m, w = AsyncProcess.error m))) ∧
    AsyncProcess.pending ∉ mountWrites env ∧
    AsyncProcess.none ∉ (fetchTokenInfo env).writes := by
  obtain ⟨w, hw, hterm⟩ := single_terminal_write env
  refine ⟨⟨w, hw, hterm⟩, ?_, ?_⟩
  · simp only [mountWrites, hw, List.mem_cons, List.mem_singleton,
      List.not_mem_nil, or_false]
    rcases hterm with ⟨v, rfl⟩ | ⟨m, rfl⟩ <;> simp
  · simp only [hw, List.mem_singleton]
    rcases hterm with ⟨v, rfl⟩ | ⟨m, rfl⟩ <;> simp

/-- Claim C4: when the token store reports no token, the run writes
`Succeeded(Unauthenticated)` and performs zero verification calls and zero
profile calls. -/
theorem absent_token_unauthenticated_no_calls (env : Env)
    (h : env.getToken = Option.none) :
    fetchTokenInfo env
      = ⟨[AsyncProcess.success AuthenticationState.unauthenticated], 0, 0⟩ := by
  simp [fetchTokenInfo, h, unauthenticatedState]

/-- Witness for C4: the token store holds no token. -/
theorem absent_token_unauthenticated_no_calls_witness :
    fetchTokenInfo ⟨Option.none, fun _ => Except.ok Option.none,
        fun _ _ => Except.ok Option.none⟩
      = ⟨[AsyncProcess.success AuthenticationState.unauthenticated], 0, 0⟩ :=
  absent_token_unauthenticated_no_calls _ rfl

/-- Claim C5: when verification raises a classified failure whose code is
not 10020, the run writes `Failed(message)` with exactly the
service-provided message. -/
theorem otherClassifiedCode_is_failed (env : Env) (token msg : String)
    (code : Int)
    (htok : env.getToken = some token)
    (hraise : env.getTokenInfo token
        = Except.error (JsError.authError code msg))
    (hcode : code ≠ 10020) :
    (fetchTokenInfo env).writes = [AsyncProcess.error msg] := by
  simp [fetchTokenInfo, htok, hraise, handleCatch, hcode, errorState]

/-- Witness for C5: token "xyz", verification raises `{code:500,
message:"server down"}`. -/
theorem otherClassifiedCode_is_failed_witness :
    (fetchTokenInfo ⟨some "xyz",
        fun _ => Except.error (JsError.authError 500 "server down"),
        fun _ _ => Except.ok Option.none⟩).writes
      = [AsyncProcess.error "server down"] :=
  otherClassifiedCode_is_failed _ "xyz" "server down" 500 rfl rfl (by decide)

/-- Claim C6: when verification or the profile fetch raises an unclassified
failure, the run writes `Failed` with the failure's own message when it is
an `Error`, and with the literal "Unknown Error" when the raised value is
not an `Error`. -/
theorem unclassified_failure_message_or_fallback
    (env : Env) (token : String) (ex : JsError) (msg : String)
    (htok : env.getToken = some token)
    (hraise : env.getTokenInfo token = Except.error ex ∨
      ∃ info, env.getTokenInfo token = Except.ok (some info) ∧
        env.fetchProfile token info.user = Except.error ex)
    (hmsg : ex = JsError.error msg ∨
      (ex = JsError.other ∧ msg = "Unknown Error")) :
    (fetchTokenInfo env).writes = [AsyncProcess.error msg] := by
  have hhc : handleCatch ex = AsyncProcess.error msg := by
    rcases hmsg with rfl | ⟨rfl, rfl⟩ <;> rfl
  rcases hraise with h | ⟨info, hv, hp⟩
  · simp [fetchTokenInfo, htok, h, hhc]
  · simp [fetchTokenInfo, fetchUserProfile, htok, hv, hp, hhc]

/-- Witness for C6: token "xyz", verification raises a non-Error value,
surfaced as the fallback literal. -/
theorem unclassified_failure_message_or_fallback_witness :
    (fetchTokenInfo ⟨some "xyz", fun _ => Except.error JsError.other,
        fun _ _ => Except.ok Option.none⟩).writes
      = [AsyncProcess.error "Unknown Error"] :=
  unclassified_failure_message_or_fallback _ "xyz" JsError.other
    "Unknown Error" rfl (Or.inl rfl) (Or.inr ⟨rfl, rfl⟩)

/-- Claim C7: when verification succeeds with metadata and the profile fetch
returns a record, the run writes `Succeeded(Authenticated)` carrying the
store's token, the client's metadata and the fetcher's profile unmodified,
after exactly one verification call and one profile call. -/
theorem valid_token_found_profile_authenticated
    (env : Env) (token : String) (info : TokenInfo) (profile : UserProfile)
    (htok : env.getToken = some token)
    (hverify : env.getTokenInfo token = Except.ok (some info))
    (hprofile : env.fetchProfile token info.user
        = Except.ok (some profile)) :
    fetchTokenInfo env =
      ⟨[AsyncProcess.success
          (AuthenticationState.authenticated ⟨token, info⟩ profile)],
        1, 1⟩ := by
  simp [fetchTokenInfo, fetchUserProfile, htok, hverify, hprofile]

/-- Witness for C7: token "abc123", verification returns `{user:"alice"}`,
profile fetch for "alice" returns `{name:"Alice"}`. -/
theorem valid_token_found_profile_authenticated_witness :
    fetchTokenInfo ⟨some "abc123",
        fun _ => Except.ok (some ⟨"alice", []⟩),
        fun _ _ => Except.ok (some ⟨"Alice"⟩)⟩
      = ⟨[AsyncProcess.success
            (AuthenticationState.authenticated ⟨"abc123", ⟨"alice", []⟩⟩
              ⟨"Alice"⟩)], 1, 1⟩ :=
  valid_token_found_profile_authenticated _ "abc123" ⟨"alice", []⟩ ⟨"Alice"⟩
    rfl rfl rfl

/-- Claim C8: when verification completes without raising but returns absent
metadata, the run writes `Succeeded(Unauthenticated)`. -/
theorem absent_metadata_unauthenticated (env : Env) (token : String)
    (htok : env.getToken = some token)
    (hverify : env.getTokenInfo token = Except.ok Option.none) :
    (fetchTokenInfo env).writes
      = [AsyncProcess.success AuthenticationState.unauthenticated] := by
  simp [fetchTokenInfo, htok, hverify, unauthenticatedState]

/-- Witness for C8: token "xyz", verification returns absent metadata. -/
theorem absent_metadata_unauthenticated_witness :
    (fetchTokenInfo ⟨some "xyz", fun _ => Except.ok Option.none,
        fun _ _ => Except.ok Option.none⟩).writes
      = [AsyncProcess.success AuthenticationState.unauthenticated] :=
  absent_metadata_unauthenticated _ "xyz" rfl rfl

/-- Claim C9: the outcome is a sum type with exactly one active variant (by
construction of `AuthenticationState`); an `Authenticated` success is
written only when the store, the verification client and the profile
fetcher all produced exactly the carried values; and every run terminates
in exactly one success-or-error envelope write — no raised failure escapes
the orchestration. -/
theorem outcome_invariant_no_propagation (env : Env) :
    (∀ ai up,
      AsyncProcess.success (AuthenticationState.authenticated ai up) ∈
          (fetchTokenInfo env).writes →
        env.getToken = some ai.token ∧
        env.getTokenInfo ai.token = Except.ok (some ai.tokenInfo) ∧
        env.fetchProfile ai.token ai.tokenInfo.user
          = Except.ok (some up)) ∧
    (∃ w, (fetchTokenInfo env).writes = [w] ∧
      ((∃ v, w = AsyncProcess.success v) ∨
        (∃ m, w = AsyncProcess.error m))) := by
  refine ⟨?_, single_terminal_write env⟩
  intro ai up hmem
  cases htok : env.getToken with
  | none => simp [fetchTokenInfo, htok, unauthenticatedState] at hmem
  | some token =>
    cases hg : env.getTokenInfo token with
    | error ex =>
      exfalso
      simp only [fetchTokenInfo, htok, hg, List.mem_singleton] at hmem
      exact handleCatch_ne_authenticated ex ai up hmem.symm
    | ok oinfo =>
      cases oinfo with
      | none => simp [fetchTokenInfo, htok, hg, unauthenticatedState] at hmem
      | some info =>
        cases hp : env.fetchProfile token info.user with
        | error ex =>
          exfalso
          simp only [fetchTokenInfo, fetchUserProfile, htok, hg, hp,
            List.mem_singleton] at hmem
          exact handleCatch_ne_authenticated ex ai up hmem.symm
        | ok oup =>
          cases oup with
          | none =>
            simp [fetchTokenInfo, fetchUserProfile, htok, hg, hp,
              handleCatch, errorState] at hmem
          | some up2 =>
            simp only [fetchTokenInfo, fetchUserProfile, htok, hg, hp,
              List.mem_singleton, AsyncProcess.success.injEq,
              AuthenticationState.authenticated.injEq] at hmem
            obtain ⟨hai, hup⟩ := hmem
            subst hai
            subst hup
            refine ⟨?_, ?_, ?_⟩
            · rfl
            · simpa using hg
            · simpa using hp

/-- Claim C10: an unclassified `Error` carrying the empty message yields
`Failed("")` — surfaced as-is — while the "Unknown Error" fallback appears
exactly when the raised value is not an `Error` at all. -/
theorem empty_message_surfaced_as_is
    (env envOther : Env) (token tokenO : String)
    (htok : env.getToken = some token)
    (hraise : env.getTokenInfo token
        = Except.error (JsError.error ""))
    (htokO : envOther.getToken = some tokenO)
    (hraiseO : envOther.getTokenInfo tokenO = Except.error JsError.other) :
    (fetchTokenInfo env).writes = [AsyncProcess.error ""] ∧
    (fetchTokenInfo envOther).writes
      = [AsyncProcess.error "Unknown Error"] := by
  constructor
  · simp [fetchTokenInfo, htok, hraise, handleCatch, errorState]
  · simp [fetchTokenInfo, htokO, hraiseO, handleCatch, errorState]

/-- Witness for C10: an `Error` with empty message yields `Failed("")`; a
non-Error raised value yields the fallback. -/
theorem empty_message_surfaced_as_is_witness :
    (fetchTokenInfo ⟨some "xyz",
        fun _ => Except.error (JsError.error ""),
        fun _ _ => Except.ok Option.none⟩).writes
      = [AsyncProcess.error ""] ∧
    (fetchTokenInfo ⟨some "xyz", fun _ => Except.error JsError.other,
        fun _ _ => Except.ok Option.none⟩).writes
      = [AsyncProcess.error "Unknown Error"] :=
  empty_message_surfaced_as_is _ _ "xyz" "xyz" rfl rfl rfl rfl

end Navigator
